import Mathlib

/-!
Shallow embedding of the akf-nextjs-test todo application.

The embedding covers the data model (types/todo.ts), the three server
actions (actions/todo-actions.ts), the page orchestrator (app/page.tsx),
the client list component with its mutation wiring
(app/_components/todo-list.tsx), and the URL filter debounce effect from
the repository documentation.  Machine-level effects are made explicit:
a fetch call is represented by its observable outcome, a thrown
JavaScript value by an explicit `Thrown` term, the try/catch of each
server action by an `Except` computation followed by a total catch
handler, and the revalidation side effect by a boolean flag in the
action's result.
-/

/-- A todo item, from types/todo.ts.  The `status` field carries the
string union "pending" | "completed". -/
structure Todo where
  id : String
  task : String
  status : String
  createdAt : Option String := none
  updatedAt : Option String := none
  deriving DecidableEq, Repr

/-- A JavaScript thrown value: either an `Error` carrying a message, or
any other thrown value (not an instance of `Error`). -/
inductive Thrown where
  | err (message : String)
  | nonErr
  deriving DecidableEq, Repr

/-- The message produced by each server action's catch block, which reads
`error instanceof Error ? error.message : "Internal server error"`. -/
def catchMessage : Thrown → String
  | Thrown.err m => m
  | Thrown.nonErr => "Internal server error"

/-- Observable outcome of one fetch call as a server action sees it:
either the fetch promise rejects (transport failure) with a thrown value,
or a response arrives with an `ok` flag and a JSON body whose `error`
field may or may not be present. -/
inductive FetchOutcome where
  | throws (e : Thrown)
  | resp (ok : Bool) (errorField : Option String)
  deriving DecidableEq, Repr

/-- The result value returned by every server action. -/
structure WriteResult where
  success : Bool
  error : Option String
  deriving DecidableEq, Repr

/-- An HTTP request as built by the server actions.  `bodyTask` and
`bodyStatus` are the only JSON body fields the actions ever set. -/
structure Request where
  method : String
  url : String
  bodyTask : Option String
  bodyStatus : Option String
  deriving DecidableEq, Repr

/-- The staged todo payload sent by the client form (a TypeScript
`Partial` over `Todo`, with exactly `task` and `status` populated). -/
structure TodoInput where
  task : String
  status : String
  deriving DecidableEq, Repr

/-- Try block of `createTodo`: await fetch (a rejection propagates), read
the JSON body, throw `new Error(result.error ?? "Unable to create todo")`
when the response is not ok, otherwise call `revalidatePath("/")` (the
`true` flag) and return `{ success: true }`. -/
def createTodoTry (outcome : FetchOutcome) : Except Thrown (WriteResult × Bool) :=
  match outcome with
  | FetchOutcome.throws e => Except.error e
  | FetchOutcome.resp ok errorField =>
      if !ok then Except.error (Thrown.err (errorField.getD "Unable to create todo"))
      else Except.ok ({ success := true, error := none }, true)

/-- Try block of `removeTodo`; the body is a verbatim copy of
`createTodoTry` in the source, including the fallback message. -/
def removeTodoTry (outcome : FetchOutcome) : Except Thrown (WriteResult × Bool) :=
  match outcome with
  | FetchOutcome.throws e => Except.error e
  | FetchOutcome.resp ok errorField =>
      if !ok then Except.error (Thrown.err (errorField.getD "Unable to create todo"))
      else Except.ok ({ success := true, error := none }, true)

/-- Try block of `updateTodoStatus`; again a verbatim copy of the
response handling of `createTodoTry` in the source. -/
def updateTodoStatusTry (outcome : FetchOutcome) : Except Thrown (WriteResult × Bool) :=
  match outcome with
  | FetchOutcome.throws e => Except.error e
  | FetchOutcome.resp ok errorField =>
      if !ok then Except.error (Thrown.err (errorField.getD "Unable to create todo"))
      else Except.ok ({ success := true, error := none }, true)

/-- The status value written by `updateTodoStatus`, from the inline
ternary `status === "pending" ? "completed" : "pending"`. -/
def toggledStatus (status : String) : String :=
  if status = "pending" then "completed" else "pending"

/-- Server action `createTodo(todo)`: a POST of the staged todo to
`/items`, whose try block is wrapped in a total catch handler.  The
returned triple is the request issued, the result value, and whether
`revalidatePath("/")` ran. -/
def createTodo (base : String) (todo : TodoInput) (outcome : FetchOutcome) :
    Request × WriteResult × Bool :=
  ({ method := "POST", url := base ++ "/items",
     bodyTask := some todo.task, bodyStatus := some todo.status },
   match createTodoTry outcome with
   | Except.ok r => r
   | Except.error e => ({ success := false, error := some (catchMessage e) }, false))

/-- Server action `removeTodo(id)`: a DELETE of `/items/:id` with the
same catch handler. -/
def removeTodo (base : String) (id : String) (outcome : FetchOutcome) :
    Request × WriteResult × Bool :=
  ({ method := "DELETE", url := base ++ "/items/" ++ id,
     bodyTask := none, bodyStatus := none },
   match removeTodoTry outcome with
   | Except.ok r => r
   | Except.error e => ({ success := false, error := some (catchMessage e) }, false))

/-- Server action `updateTodoStatus(id, status)`: a PUT of the toggled
status to `/items/:id` with the same catch handler. -/
def updateTodoStatus (base : String) (id : String) (status : String)
    (outcome : FetchOutcome) : Request × WriteResult × Bool :=
  ({ method := "PUT", url := base ++ "/items/" ++ id,
     bodyTask := none, bodyStatus := some (toggledStatus status) },
   match updateTodoStatusTry outcome with
   | Except.ok r => r
   | Except.error e => ({ success := false, error := some (catchMessage e) }, false))

/-- Whether a fetch outcome is a response with a successful HTTP status. -/
def isOkResponse : FetchOutcome → Bool
  | FetchOutcome.resp true _ => true
  | _ => false

/-- Modelled from the spec: the framework behaviour of the invalidation
signal (revalidatePath), which is not part of the repository's own code.
When the signal was issued the list view is re-fetched; otherwise the
previously fetched list stays unchanged. -/
def viewAfterWrite (view : List Todo) (revalidated : Bool) (refetched : List Todo) :
    List Todo :=
  if revalidated then refetched else view

/-- C4: createTodo returns success exactly on an ok HTTP response; on a
non-ok response the returned error message is the body's error field when
present and the generic "Unable to create todo" otherwise; a rejected
fetch yields the thrown error's message, with "Internal server error" for
a thrown value that is not an Error. -/
theorem createTodo_result_contract (base : String) (todo : TodoInput) :
    (∀ errorField : Option String,
      (createTodo base todo (FetchOutcome.resp true errorField)).2.1 =
        { success := true, error := none }) ∧
    (∀ m : String,
      (createTodo base todo (FetchOutcome.resp false (some m))).2.1 =
        { success := false, error := some m }) ∧
    ((createTodo base todo (FetchOutcome.resp false none)).2.1 =
        { success := false, error := some "Unable to create todo" }) ∧
    (∀ m : String,
      (createTodo base todo (FetchOutcome.throws (Thrown.err m))).2.1 =
        { success := false, error := some m }) ∧
    ((createTodo base todo (FetchOutcome.throws Thrown.nonErr)).2.1 =
        { success := false, error := some "Internal server error" }) :=
  ⟨fun _ => rfl, fun _ => rfl, rfl, fun _ => rfl, rfl⟩

/-- C5: for every fetch outcome, each of the three write actions returns
a plain result value, either success without an error or failure carrying
an error message; no thrown value escapes the catch handler. -/
theorem actions_never_throw (base id status : String) (todo : TodoInput)
    (o : FetchOutcome) :
    ((createTodo base todo o).2.1 = { success := true, error := none } ∨
      ∃ m, (createTodo base todo o).2.1 = { success := false, error := some m }) ∧
    ((removeTodo base id o).2.1 = { success := true, error := none } ∨
      ∃ m, (removeTodo base id o).2.1 = { success := false, error := some m }) ∧
    ((updateTodoStatus base id status o).2.1 = { success := true, error := none } ∨
      ∃ m, (updateTodoStatus base id status o).2.1 =
        { success := false, error := some m }) := by
  refine ⟨?_, ?_, ?_⟩ <;>
    cases o with
    | throws e => exact Or.inr ⟨catchMessage e, rfl⟩
    | resp ok errorField =>
        cases ok with
        | true => exact Or.inl rfl
        | false =>
            cases errorField with
            | none => exact Or.inr ⟨"Unable to create todo", rfl⟩
            | some m => exact Or.inr ⟨m, rfl⟩

/-- C6: each write action issues the unconditional invalidation signal
exactly when its HTTP response is ok, and without the signal the
previously fetched list is left unchanged. -/
theorem actions_invalidate_iff_success (base id status : String) (todo : TodoInput)
    (o : FetchOutcome) (view refetched : List Todo) :
    ((createTodo base todo o).2.2 = isOkResponse o) ∧
    ((removeTodo base id o).2.2 = isOkResponse o) ∧
    ((updateTodoStatus base id status o).2.2 = isOkResponse o) ∧
    (viewAfterWrite view (createTodo base todo o).2.2 refetched =
      if isOkResponse o then refetched else view) ∧
    (viewAfterWrite view (removeTodo base id o).2.2 refetched =
      if isOkResponse o then refetched else view) ∧
    (viewAfterWrite view (updateTodoStatus base id status o).2.2 refetched =
      if isOkResponse o then refetched else view) := by
  cases o with
  | throws e => exact ⟨rfl, rfl, rfl, rfl, rfl, rfl⟩
  | resp ok errorField =>
      cases ok with
      | true => exact ⟨rfl, rfl, rfl, rfl, rfl, rfl⟩
      | false =>
          cases errorField with
          | none => exact ⟨rfl, rfl, rfl, rfl, rfl, rfl⟩
          | some m => exact ⟨rfl, rfl, rfl, rfl, rfl, rfl⟩

/-- C7: for a status in the pending/completed enum, updateTodoStatus
writes the opposite status value, and toggling twice restores the
original status. -/
theorem toggle_involution (base id s : String) (o : FetchOutcome)
    (h : s = "pending" ∨ s = "completed") :
    ((updateTodoStatus base id "pending" o).1.bodyStatus = some "completed") ∧
    ((updateTodoStatus base id "completed" o).1.bodyStatus = some "pending") ∧
    toggledStatus (toggledStatus s) = s := by
  rcases h with h | h <;> subst h <;>
    exact ⟨by simp [updateTodoStatus, toggledStatus],
           by simp [updateTodoStatus, toggledStatus],
           by simp [toggledStatus]⟩

/-- Witness for C7 at a concrete status, base URL, item id and outcome. -/
theorem toggle_involution_witness :
    ("pending" = "pending" ∨ "pending" = "completed") ∧
    (((updateTodoStatus "http://localhost:8000" "42" "pending"
        (FetchOutcome.resp true none)).1.bodyStatus = some "completed") ∧
     ((updateTodoStatus "http://localhost:8000" "42" "completed"
        (FetchOutcome.resp true none)).1.bodyStatus = some "pending") ∧
     toggledStatus (toggledStatus "pending") = "pending") :=
  ⟨Or.inl rfl,
   toggle_involution "http://localhost:8000" "42" "pending"
     (FetchOutcome.resp true none) (Or.inl rfl)⟩

/-- A transient toast notification raised by the client component. -/
inductive Notification where
  | successToast (message : String)
  | errorToast (message : String)
  deriving DecidableEq, Repr

/-- Local state of the TodoList client component: the staged todo of the
add form and the loading flag of the add button. -/
structure TodoListState where
  todo : TodoInput
  loading : Bool
  deriving DecidableEq, Repr

/-- The addTodo handler of todo-list.tsx: set loading to true, await
createTodo, and on failure toast "Todo not added!" and return early;
on success toast "Todo added!", reset loading and reset the staged todo
to an empty pending task.  The argument is the awaited createTodo result;
returned are the component state after the handler and the toasts it
raised. -/
def addTodo (st : TodoListState) (result : WriteResult) :
    TodoListState × List Notification :=
  let st1 : TodoListState := { st with loading := true }
  if !result.success then
    (st1, [Notification.errorToast "Todo not added!"])
  else
    ({ todo := { task := "", status := "pending" }, loading := false },
     [Notification.successToast "Todo added!"])

/-- A server-action invocation made from a row's controls. -/
inductive ActionCall where
  | update (id : String) (status : String)
  | remove (id : String)
  deriving DecidableEq, Repr

/-- Effect of clicking a row control: the action called and the toasts
raised by the click handler itself. -/
structure ClickEffect where
  call : ActionCall
  notifications : List Notification
  deriving DecidableEq, Repr

/-- The status-toggle button's onClick from todo-list.tsx: it calls
updateTodoStatus with the item's id and current status and raises no
notification. -/
def toggleClick (t : Todo) : ClickEffect :=
  { call := ActionCall.update t.id t.status, notifications := [] }

/-- The delete button's onClick from todo-list.tsx: it calls removeTodo
with the item's id and raises no notification. -/
def deleteClick (t : Todo) : ClickEffect :=
  { call := ActionCall.remove t.id, notifications := [] }

/-- One rendered row of the list: its React key, the displayed task text,
and whether the toggle control shows the completed visual state (keyed on
status === "completed"). -/
structure Row where
  key : String
  task : String
  completedVisual : Bool
  deriving DecidableEq, Repr

/-- The list area rendered by TodoList: the empty-state placeholder when
there are no todos, otherwise one row per todo. -/
inductive ListView where
  | emptyState
  | rows (rws : List Row)
  deriving DecidableEq, Repr

/-- The list rendering of todo-list.tsx: `todos.length === 0` shows the
Empty placeholder, otherwise the todos are mapped to rows. -/
def renderTodoList (todos : List Todo) : ListView :=
  if todos.length = 0 then ListView.emptyState
  else ListView.rows (todos.map (fun t =>
    { key := t.id, task := t.task, completedVisual := t.status == "completed" }))

/-- Outcome of the page's list read: the fetch rejects with a thrown
value, or a response arrives with an ok flag and a decoded data array. -/
inductive ListOutcome where
  | throws (e : Thrown)
  | resp (ok : Bool) (data : List Todo)
  deriving DecidableEq, Repr

/-- What the Home server component renders. -/
inductive HomeView where
  | errorPanel
  | todoPage (todos : List Todo)
  deriving DecidableEq, Repr

/-- The URL of the list read issued by Home in app/page.tsx, with absent
search parameters defaulted to the empty string. -/
def homeRequestUrl (base : String) (query status : Option String) : String :=
  base ++ "/items?query=" ++ query.getD "" ++ "&status=" ++ status.getD ""

/-- The Home server component of app/page.tsx: a non-ok response renders
the terminal error panel, an ok response renders the todo page; the fetch
is not wrapped in try/catch, so a rejected fetch propagates as a thrown
value out of the component. -/
def Home (outcome : ListOutcome) : Except Thrown HomeView :=
  match outcome with
  | ListOutcome.throws e => Except.error e
  | ListOutcome.resp ok data =>
      if !ok then Except.ok HomeView.errorPanel
      else Except.ok (HomeView.todoPage data)

/-- C8, evaluated at the failing inputs: a toggle click and a delete
click raise no notification at all, and a create that fails with the
structured API error "task required" raises the fixed toast
"Todo not added!" instead of that message. -/
theorem mutation_notification_eval :
    (toggleClick { id := "42", task := "buy milk", status := "pending" }).notifications
      = [] ∧
    (deleteClick { id := "42", task := "buy milk", status := "pending" }).notifications
      = [] ∧
    (addTodo { todo := { task := "buy milk", status := "pending" }, loading := false }
        { success := false, error := some "task required" }).2 =
      [Notification.errorToast "Todo not added!"] :=
  ⟨rfl, rfl, rfl⟩

/-- C9: an empty todo array renders the empty-state placeholder, and a
non-empty array renders a rows view with exactly one row per todo whose
displayed text is that todo's task. -/
theorem render_list_rows :
    renderTodoList [] = ListView.emptyState ∧
    ∀ (t : Todo) (ts : List Todo), ∃ rws : List Row,
      renderTodoList (t :: ts) = ListView.rows rws ∧
      rws.length = (t :: ts).length ∧
      rws.map Row.task = (t :: ts).map Todo.task := by
  refine ⟨rfl, ?_⟩
  intro t ts
  refine ⟨(t :: ts).map (fun x =>
    { key := x.id, task := x.task, completedVisual := x.status == "completed" }),
    ?_, ?_, ?_⟩
  · simp [renderTodoList]
  · simp
  · simp

/-- C10: when createTodo resolves unsuccessfully the addTodo handler
returns early with the loading flag left true and the staged todo
untouched; on success the loading flag is reset and the staged todo is
reset to an empty pending task. -/
theorem addTodo_failure_frame (st : TodoListState) (e1 e2 : Option String) :
    ((addTodo st { success := false, error := e1 }).1.loading = true) ∧
    ((addTodo st { success := false, error := e1 }).1.todo = st.todo) ∧
    ((addTodo st { success := true, error := e2 }).1 =
      { todo := { task := "", status := "pending" }, loading := false }) :=
  ⟨rfl, rfl, rfl⟩

/-- C3 counterexample: at a concrete transport failure the page does not
render the error panel; the thrown value propagates out of Home. -/
theorem home_transport_error_no_panel :
    Home (ListOutcome.throws (Thrown.err "fetch failed")) ≠
      Except.ok HomeView.errorPanel := by
  simp [Home]

/-- C3 amended: a list read answered with a non-success HTTP status
renders the terminal error panel (with no retry and no stale list), an
ok response renders the fetched todos, and a transport failure is not
caught by the page: the thrown value propagates out of Home instead of
rendering the error panel. -/
theorem home_failure_rendering :
    (∀ data : List Todo,
      Home (ListOutcome.resp false data) = Except.ok HomeView.errorPanel) ∧
    (∀ e : Thrown, Home (ListOutcome.throws e) = Except.error e) ∧
    (∀ data : List Todo,
      Home (ListOutcome.resp true data) = Except.ok (HomeView.todoPage data)) :=
  ⟨fun _ => rfl, fun _ => rfl, fun _ => rfl⟩

/-- A string has length zero exactly when it is the empty string. -/
theorem string_length_zero_iff (s : String) : s.length = 0 ↔ s = "" := by
  cases s with
  | mk data =>
      constructor
      · intro h
        have hd : data = [] := List.length_eq_zero.mp h
        subst hd
        rfl
      · intro h
        rw [h]
        rfl

/-- The filter state held by the client component: the text query and the
status dropdown value ("" meaning all). -/
structure FilterState where
  query : String
  status : String
  deriving DecidableEq, Repr

/-- The URL parameter set built by the debounce commit: the query
parameter is set only when the query is non-empty and the status
parameter only when the status is non-empty. -/
def serializeFilter (s : FilterState) : Option String × Option String :=
  (if s.query.length > 0 then some s.query else none,
   if s.status.length > 0 then some s.status else none)

/-- The filter read back from the current URL by the page, with absent
parameters treated as empty strings. -/
def readFilterFromUrl (query status : Option String) : FilterState :=
  { query := query.getD "", status := status.getD "" }

/-- How a committed URL enters the browser history: the debounce effect
uses router.replace, never router.push. -/
inductive NavMode where
  | replace
  | push
  deriving DecidableEq, Repr

/-- One URL commit performed by the debounce effect: when it fired, the
serialized parameter set, and the navigation mode used. -/
structure Commit where
  time : Nat
  query : Option String
  status : Option String
  mode : NavMode
  deriving DecidableEq, Repr

/-- The commit the debounce timer performs when it fires at time t with
the captured filter state s. -/
def commitOf (t : Nat) (s : FilterState) : Commit :=
  { time := t, query := (serializeFilter s).1, status := (serializeFilter s).2,
    mode := NavMode.replace }

/-- One run of the debounce effect: the time at which the query/status
state changed (including the initial run) and the state it captured. -/
structure Edit where
  time : Nat
  state : FilterState
  deriving DecidableEq, Repr

/-- The setTimeout/clearTimeout machine of the debounce effect.  At most
one timer is pending; on each effect run the cleanup clears the previous
timer, but a timer whose 500ms already elapsed has fired and produced its
commit before being cleared; after the last run the surviving timer
fires. -/
def runTimers (delay : Nat) (pending : Option (Nat × FilterState)) :
    List Edit → List Commit
  | [] =>
      match pending with
      | none => []
      | some (t, s) => [commitOf t s]
  | e :: rest =>
      (match pending with
       | none => []
       | some (t, s) => if t ≤ e.time then [commitOf t s] else []) ++
        runTimers delay (some (e.time + delay, e.state)) rest

/-- All URL commits produced by a sequence of debounce effect runs,
starting with no pending timer. -/
def runDebounce (delay : Nat) (edits : List Edit) : List Commit :=
  runTimers delay none edits

/-- Modelled from the spec: the declarative debounce contract.  An edit
followed by a quiet period, with no further edit arriving within the
delay, yields exactly one commit carrying the final value of each field;
an edit superseded within the delay yields none. -/
def specQuietCommits (delay : Nat) : List Edit → List Commit
  | [] => []
  | [e] => [commitOf (e.time + delay) e.state]
  | e :: e2 :: rest =>
      (if e.time + delay ≤ e2.time then [commitOf (e.time + delay) e.state] else []) ++
        specQuietCommits delay (e2 :: rest)

/-- Running the timer machine with a pending timer produces that timer's
commit, fired or surviving, followed by the commits of the quiet edits. -/
theorem runTimers_some (delay : Nat) (edits : List Edit) :
    ∀ t s, runTimers delay (some (t, s)) edits =
      (match edits with
       | [] => [commitOf t s]
       | e :: _ => if t ≤ e.time then [commitOf t s] else []) ++
        specQuietCommits delay edits := by
  induction edits with
  | nil => intro t s; rfl
  | cons e rest ih =>
      intro t s
      cases rest with
      | nil =>
          show (if t ≤ e.time then [commitOf t s] else []) ++
              runTimers delay (some (e.time + delay, e.state)) [] = _
          rfl
      | cons e2 rest2 =>
          show (if t ≤ e.time then [commitOf t s] else []) ++
              runTimers delay (some (e.time + delay, e.state)) (e2 :: rest2) = _
          rw [ih (e.time + delay) e.state]
          rfl

/-- C1: the commits of the debounce timer machine are exactly one commit
per quiet period, each carrying the final value of each field at the edit
that started the quiet period; every commit replaces the navigation entry
rather than pushing one, and its parameter set contains the query only if
non-empty and the status only if non-empty (and then verbatim). -/
theorem filter_debounce_single_commit (edits : List Edit) :
    runDebounce 500 edits = specQuietCommits 500 edits ∧
    (∀ (t : Nat) (st : FilterState),
      (commitOf t st).mode = NavMode.replace ∧
      ((commitOf t st).query = none ↔ st.query = "") ∧
      ((commitOf t st).status = none ↔ st.status = "") ∧
      ((commitOf t st).query = none ∨ (commitOf t st).query = some st.query) ∧
      ((commitOf t st).status = none ∨ (commitOf t st).status = some st.status)) := by
  constructor
  · cases edits with
    | nil => rfl
    | cons e rest =>
        show runTimers 500 (some (e.time + 500, e.state)) rest = _
        rw [runTimers_some 500 rest (e.time + 500) e.state]
        cases rest with
        | nil => rfl
        | cons e2 rest2 => rfl
  · intro t st
    refine ⟨rfl, ?_, ?_, ?_, ?_⟩
    · by_cases h : st.query.length > 0
      · have hne : st.query ≠ "" := fun he => by
          rw [he] at h
          exact Nat.lt_irrefl 0 h
        simp [commitOf, serializeFilter, h, hne]
      · have h0 : st.query.length = 0 := Nat.eq_zero_of_not_pos h
        have he : st.query = "" := (string_length_zero_iff st.query).mp h0
        simp [commitOf, serializeFilter, h, he]
    · by_cases h : st.status.length > 0
      · have hne : st.status ≠ "" := fun he => by
          rw [he] at h
          exact Nat.lt_irrefl 0 h
        simp [commitOf, serializeFilter, h, hne]
      · have h0 : st.status.length = 0 := Nat.eq_zero_of_not_pos h
        have he : st.status = "" := (string_length_zero_iff st.status).mp h0
        simp [commitOf, serializeFilter, h, he]
    · by_cases h : st.query.length > 0 <;> simp [commitOf, serializeFilter, h]
    · by_cases h : st.status.length > 0 <;> simp [commitOf, serializeFilter, h]

/-- C2: serializing a filter state to URL parameters (omitting empty
fields) and re-parsing with absent parameters treated as empty strings
recovers the original state, and on the URL carrying query=buy and
status=pending the page issues its read for exactly those values. -/
theorem filter_url_roundtrip :
    (∀ f : FilterState,
      readFilterFromUrl (serializeFilter f).1 (serializeFilter f).2 = f) ∧
    (∀ base : String,
      homeRequestUrl base (some "buy") (some "pending") =
        base ++ "/items?query=buy&status=pending") := by
  constructor
  · intro f
    obtain ⟨q, s⟩ := f
    by_cases hq : q.length > 0 <;> by_cases hs : s.length > 0
    · simp [serializeFilter, readFilterFromUrl, hq, hs]
    · have h0 : s.length = 0 := Nat.eq_zero_of_not_pos hs
      have he : s = "" := (string_length_zero_iff s).mp h0
      subst he
      simp [serializeFilter, readFilterFromUrl, hq]
    · have h0 : q.length = 0 := Nat.eq_zero_of_not_pos hq
      have he : q = "" := (string_length_zero_iff q).mp h0
      subst he
      simp [serializeFilter, readFilterFromUrl, hs]
    · have h0q : q.length = 0 := Nat.eq_zero_of_not_pos hq
      have heq : q = "" := (string_length_zero_iff q).mp h0q
      have h0s : s.length = 0 := Nat.eq_zero_of_not_pos hs
      have hes : s = "" := (string_length_zero_iff s).mp h0s
      subst heq
      subst hes
      simp [serializeFilter, readFilterFromUrl]
  · intro base
    show (((base ++ "/items?query=") ++ "buy") ++ "&status=") ++ "pending" = _
    rw [String.append_assoc, String.append_assoc, String.append_assoc]
    rfl
